import Mathlib

/-!
Verification development for the MeshOptimizer repository: a shallow embedding
of the backend route handlers (`backend/routes/meshOptimizer.js`, the legacy
`server.js`) and of the browser polling loop (`frontend/src/App.vue`,
`frontend/src/utils/statusPoller.ts`), together with theorems settling the
frozen specification claims.

Modelling conventions:
* Upstream HTTP behaviour is an `Oracle : String → Rp Page`, mapping an
  endpoint string to either a transport/HTTP failure (`Rp.err`, the value
  `rpSafe` produces for a throw of `rp`) or a parsed JSON page.  URL encoding
  of the query (`encodeURIComponent`) and the `API_BASE` stripping of
  continuation links are identity-like renamings of endpoint strings and are
  absorbed by quantifying over all oracles.
* JavaScript numbers are modelled as `ℚ` (the code performs only `+ - * /`,
  `Math.min/max/floor/round/pow(·,2)` on them); `NaN`/float rounding is out of
  scope.
* JavaScript values that the code inspects only via `typeof v === 'string'`
  and truthiness are modelled by `JsVal`/`JsArg`.
-/

namespace MeshOpt

/- Batteries marks the `Rat` field operations `@[irreducible]`; re-allow
unfolding inside this file so that concrete program runs evaluate with
`decide`.  (Scoped to this namespace.) -/
attribute [local semireducible] Rat.add Rat.sub Rat.mul Rat.inv Rat.ofScientific

/-! ### JS string primitives

The byte-position-based core `String` functions do not evaluate inside the
kernel, so the JS string operations the code uses (`toLowerCase`, `split`,
`includes`, `startsWith`) are embedded directly over the character list of
the string. -/

/-- JS `s.toLowerCase()` (character-wise). -/
def jsToLower (s : String) : String :=
  ⟨s.data.map Char.toLower⟩

/-- JS `s.startsWith(pre)`. -/
def jsStartsWith (s pre : String) : Bool :=
  pre.data.isPrefixOf s.data

/-- Substring occurrence over character lists. -/
def subOccurs (sub : List Char) : List Char → Bool
  | [] => sub.isEmpty
  | c :: cs => sub.isPrefixOf (c :: cs) || subOccurs sub cs

/-- JS `s.includes(sub)`. -/
def jsIncludes (s sub : String) : Bool :=
  subOccurs sub.data s.data

/-- JS `s.split('.')` (split on every occurrence of the dot). -/
def jsSplitDotAux : List Char → List Char → List String
  | [], acc => [⟨acc.reverse⟩]
  | c :: cs, acc =>
    if c = '.' then (⟨acc.reverse⟩ : String) :: jsSplitDotAux cs []
    else jsSplitDotAux cs (c :: acc)

/-- JS `s.split('.')`. -/
def jsSplitDot (s : String) : List String :=
  jsSplitDotAux s.data []

/-- A JSON value as far as the status code inspects it: a string, or some
non-string value (number, object, array, boolean, null). -/
inductive JsVal where
  | str (s : String)
  | other
deriving DecidableEq, Repr

/-- A request-supplied value slot (`req.query.hash`, `req.body.contentHash`):
absent (`undefined`), a string, or some non-string JSON value. -/
inductive JsArg where
  | absent
  | str (s : String)
  | nonstr
deriving DecidableEq, Repr

/-- JS truthiness of an argument slot: `undefined` is falsy, a string is
truthy iff nonempty; the non-string values these routes can receive from a
parsed query/body (arrays, objects) are truthy. -/
def JsArg.truthy : JsArg → Bool
  | .absent => false
  | .str s => s != ""
  | .nonstr => true

/-- A catalog asset as the search code reads it: `item.id`, `item.name`,
`item.tags` (tag names, already projected through `t?.name || t`). -/
structure Item where
  id : Nat
  name : String
  tags : List String
deriving DecidableEq, Repr

/-- One page of a paginated `/rawmodel` listing: `data.data` and
`data.links.next`. -/
structure Page where
  items : List Item
  next : Option String
deriving DecidableEq, Repr

/-- Result of `rpSafe`: either the tagged error object (`__rp_error`) that a
failed `rp` call is converted into, or the parsed payload.  `rpSafe` never
throws by construction. -/
inductive Rp (α : Type) where
  | err (msg : String)
  | ok (val : α)
deriving DecidableEq, Repr

/-- The upstream service, as a total map from endpoint to `rpSafe` result. -/
def Oracle := String → Rp Page

/-- Embeds `tags.map(t => (t?.name || t)?.toLowerCase()).filter(Boolean)` from
`searchByQ` / `scanAllPagesForTag` in `routes/meshOptimizer.js`. -/
def tagNames (it : Item) : List String :=
  (it.tags.map jsToLower).filter (fun t => t != "")

/-- Embeds `const n = data?.links?.next; next = n ? n.replace(API_BASE, '') : null`:
a falsy (absent or empty) link ends the pagination. -/
def nextEndpoint (p : Page) : Option String :=
  match p.next with
  | none => none
  | some s => if s = "" then none else some s

/-- The shared page loop of `searchByQ` / `scanAllPagesForTag` in
`routes/meshOptimizer.js` (`while (next && pageCount < maxPages)`), with
`fuel` the number of pages the loop may still fetch.  Returns the first item
one of whose (lowercased, nonempty) tag names equals `target`, paired with
the number of pages actually fetched; an `rpSafe` error on any page returns
`null` (not found). -/
def scanLoop (oracle : Oracle) (target : String) : Option String → Nat → Option Item × Nat
  | _, 0 => (none, 0)
  | none, _ => (none, 0)
  | some ep, fuel + 1 =>
    match oracle ep with
    | .err _ => (none, 1)
    | .ok page =>
      match page.items.find? (fun it => (tagNames it).contains target) with
      | some it => (some it, 1)
      | none =>
        let r := scanLoop oracle target (nextEndpoint page) fuel
        (r.1, r.2 + 1)

/-- Embeds `searchByQ(query)` from `routes/meshOptimizer.js`: targeted `?q=` search,
`maxPages = 10`, exact (case-insensitive) tag match checked locally. -/
def searchByQ (oracle : Oracle) (query : String) : Option Item × Nat :=
  scanLoop oracle (jsToLower query) (some ("/rawmodel?q=" ++ query)) 10

/-- Embeds `scanAllPagesForTag(tagLower)` from `routes/meshOptimizer.js`: unfiltered
full-catalog scan, `maxPages = 20`. -/
def scanAllPagesForTag (oracle : Oracle) (tagLower : String) : Option Item × Nat :=
  scanLoop oracle tagLower (some "/rawmodel") 20

/-- Ordered, short-circuiting trial of search variants (the `for (const
variant of ...)` loops of `findByHash`), accumulating fetched-page counts. -/
def tryVariants (f : String → Option Item × Nat) : List String → Option Item × Nat
  | [] => (none, 0)
  | v :: vs =>
    match f v with
    | (some it, n) => (some it, n)
    | (none, n) =>
      let r := tryVariants f vs
      (r.1, n + r.2)

/-- The `searchVariants` list of `findByHash`. -/
def hashVariants (h : String) : List String :=
  ["sha256-" ++ h, "hash:" ++ h, h, "content-hash-" ++ h.take 16, "filename:" ++ h]

/-- The `partialVariants` list (strategy 3) of `findByHash`. -/
def shortHashVariants (h : String) : List String :=
  ["sha256-" ++ h.take 16, "hash:" ++ h.take 16, h.take 16]

/-- Embeds `findByHash(hash)` from `routes/meshOptimizer.js`.  Missing, empty or
non-string hashes return `null` at once; otherwise strategy 1 (targeted
searches), strategy 2 (full scans) and strategy 3 (short-hash scans) are
tried in order.  The second component counts upstream page requests. -/
def findByHash (oracle : Oracle) (hash : JsArg) : Option Item × Nat :=
  match hash with
  | .str h =>
    if h = "" then (none, 0)
    else
      match tryVariants (fun v => searchByQ oracle v) (hashVariants h) with
      | (some it, n) => (some it, n)
      | (none, n1) =>
        match tryVariants (fun v => scanAllPagesForTag oracle (jsToLower v)) (hashVariants h) with
        | (some it, n) => (some it, n1 + n)
        | (none, n2) =>
          let r := tryVariants (fun v => scanAllPagesForTag oracle (jsToLower v)) (shortHashVariants h)
          (r.1, n1 + n2 + r.2)
  | _ => (none, 0)

/-- Response body/status of `GET /api/find-by-hash`. -/
structure FindResp where
  status : Nat
  found : Bool
  id : Option Nat
deriving DecidableEq, Repr

/-- The `GET /api/find-by-hash` handler of `routes/meshOptimizer.js`: a falsy
`hash` is a 400; otherwise the resolver's answer is reported as
`{found, id}` with status 200.  (The surrounding `try/catch` also answers
200 `found:false`, but no expression in the `try` block can throw in this
embedding.) -/
def findByHashRoute (oracle : Oracle) (hash : JsArg) : FindResp :=
  if hash.truthy = false then { status := 400, found := false, id := none }
  else
    match (findByHash oracle hash).1 with
    | none => { status := 200, found := false, id := none }
    | some hit => { status := 200, found := true, id := some hit.id }

/-- Tag comparison of the legacy `server.js` loops:
`(t?.name || t)?.toLowerCase() === query.toLowerCase()`. -/
def serverTagMatch (it : Item) (target : String) : Bool :=
  it.tags.any (fun t => jsToLower t == target)

/-- Step-indexed run of the legacy `server.js` page loops (`searchByQ` /
`scanAllPagesForTag` there), which iterate `while (next)` with NO page cap.
`some r` means the loop returned `r` after fetching at most `fuel` pages;
`none` means the loop is still fetching pages after `fuel` of them. -/
def serverScanLoop (oracle : Oracle) (target : String) : Option String → Nat → Option (Option Item)
  | none, _ => some none
  | some _, 0 => none
  | some ep, fuel + 1 =>
    match oracle ep with
    | .err _ => some none
    | .ok page =>
      match page.items.find? (fun it => serverTagMatch it target) with
      | some it => some (some it)
      | none => serverScanLoop oracle target (nextEndpoint page) fuel

/-- Step-indexed `searchByQ(query)` of `server.js`. -/
def serverSearchByQ (oracle : Oracle) (query : String) (fuel : Nat) : Option (Option Item) :=
  serverScanLoop oracle (jsToLower query) (some ("/rawmodel?q=" ++ query)) fuel

/-- Step-indexed `scanAllPagesForTag(tagLower)` of `server.js`. -/
def serverScanAllPagesForTag (oracle : Oracle) (tagLower : String) (fuel : Nat) : Option (Option Item) :=
  serverScanLoop oracle tagLower (some "/rawmodel") fuel

/-- A catalog that always has one more page: every listing request answers
with zero items and a further continuation link. -/
def adversarialOracle : Oracle :=
  fun _ => Rp.ok { items := [], next := some "/rawmodel?page=next" }

/-! ### Tag merge (`POST /api/rawmodel/:id/tags`) -/

/-- Insertion-order deduplication, keeping the first occurrence: the order
and membership semantics of JS `Array.from(new Set(list))`. -/
def dedupFirst (seen : List String) : List String → List String
  | [] => []
  | x :: xs => if x ∈ seen then dedupFirst seen xs else x :: dedupFirst (x :: seen) xs

/-- Embeds `(cur?.data?.tags || []).map(t => t?.name || t).filter(Boolean)`: the
route's projection of the asset's current tags; `filter(Boolean)` drops
falsy entries, in particular empty-string tag names. -/
def extractTagNames (raw : List String) : List String :=
  raw.filter (fun t => t != "")

/-- The tag-merge of `POST /api/rawmodel/:id/tags`:
`Array.from(new Set([...currentTags, ...incoming]))`, where `currentTags` is
the `filter(Boolean)` projection of the asset's persisted tags.  The result
is the tag list written back upstream. -/
def mergeTags (currentRaw incoming : List String) : List String :=
  dedupFirst [] (extractTagNames currentRaw ++ incoming)

/-! ### `POST /api/start-upload` -/

/-- Parsed upstream response of `POST /rawmodel/api-upload/start`: `start.id`
and the `links.s3_upload_urls` map (filename → signed URL). -/
structure StartResp where
  id : Option Nat
  s3 : List (String × String)
deriving DecidableEq, Repr

/-- Response of `POST /api/start-upload`. -/
structure UploadResp where
  status : Nat
  id : Option Nat
  existsFlag : Option Bool
  signedUrl : Option String
deriving DecidableEq, Repr

/-- JS truthiness of an optional string (absent and `''` are falsy). -/
def truthyOptStr : Option String → Bool
  | none => false
  | some s => s != ""

/-- JS truthiness of an optional number slot holding a non-negative id
(absent and `0` are falsy). -/
def truthyOptNat : Option Nat → Bool
  | none => false
  | some n => n != 0

/-- The `POST /api/start-upload` handler of `routes/meshOptimizer.js`.
`startResp` is what the upstream session-creation call would answer (an
`Rp.err` models an `rp` throw, caught by the handler's `catch` into a 500).
A truthy `contentHash` triggers the dedup resolver; a hit short-circuits
with `exists:true` and no signed URL. -/
def startUploadRoute (oracle : Oracle) (startResp : Rp StartResp)
    (modelName filename : Option String) (contentHash : JsArg) : UploadResp :=
  if !(truthyOptStr modelName) || !(truthyOptStr filename) then
    { status := 400, id := none, existsFlag := none, signedUrl := none }
  else
    let dedup := if contentHash.truthy then (findByHash oracle contentHash).1 else none
    match dedup with
    | some hit => { status := 200, id := some hit.id, existsFlag := some true, signedUrl := none }
    | none =>
      match startResp with
      | .err _ => { status := 500, id := none, existsFlag := none, signedUrl := none }
      | .ok st =>
        let signedUrl := st.s3.lookup (filename.getD "")
        if !(truthyOptNat st.id) || !(truthyOptStr signedUrl) then
          { status := 502, id := none, existsFlag := none, signedUrl := none }
        else
          { status := 200, id := st.id, existsFlag := some false, signedUrl := signedUrl }

/-! ### `GET /api/status/:id` (the status normalizer) -/

/-- One surfaced download entry `{format, url}`. -/
structure Download where
  format : String
  url : String
deriving DecidableEq, Repr

/-- The job-level download payload `latestRapid.downloads` as the code reads
it: a possible `glb` string field, a possible `all` object, and the
remaining top-level entries (every key other than `glb`/`all`). -/
structure DlData where
  glb : Option String
  all : Option (List (String × JsVal))
  extra : List (String × JsVal)
deriving DecidableEq, Repr

/-- A rapidmodel row as the status route reads it: `id`,
`optimization_status` and `Number(meta?.progress || 0)` (already coerced to
a number, absent ↦ 0). -/
structure RapidModel where
  id : Nat
  optimization_status : Option String
  progress : ℚ
  downloads : Option DlData
deriving DecidableEq, Repr

/-- The asset record as the status route reads it: `rawmodel.data.downloads`
(`none` when absent or not an object). -/
structure RawModel where
  downloads : Option (List (String × JsVal))
deriving DecidableEq, Repr

/-- The `{stage, progress, rapidmodelId, downloads}` response (with HTTP
status; the 404 branch carries an error body, represented by empty fields). -/
structure StatusResp where
  status : Nat
  stage : String
  progress : Int
  rapidmodelId : Option Nat
  downloads : List Download
deriving DecidableEq, Repr

/-- JS `s.includes(sub)` for a nonempty `sub`: splitting on `sub` yields at
least two pieces exactly when `sub` occurs in `s`. -/
def strIncludes (s sub : String) : Bool :=
  jsIncludes s sub

/-- Embeds `key.split('.').pop()`. -/
def lastDotComponent (k : String) : String :=
  (jsSplitDot k).getLastD ""

/-- Format label of an `all`-map entry:
`key.includes('.') ? key.split('.').pop() : key`. -/
def allMapFormat (k : String) : String :=
  if jsIncludes k "." then lastDotComponent k else k

/-- Format label of an asset-level download entry:
`filename.includes('.') ? filename.split('.').pop().toLowerCase() : 'file'`. -/
def fallbackFormat (k : String) : String :=
  if jsIncludes k "." then jsToLower (lastDotComponent k) else "file"

/-- Embeds the push `if (dlData.glb) downloads.push(.. format glb ..)`. -/
def dlGlb (d : DlData) : List Download :=
  match d.glb with
  | some g => if g = "" then [] else [{ format := "glb", url := g }]
  | none => []

/-- The `dlData.all` walk: entries whose value is a truthy string. -/
def dlAll (d : DlData) : List Download :=
  match d.all with
  | some entries =>
    entries.filterMap (fun e =>
      match e.2 with
      | .str u => if u = "" then none else some { format := allMapFormat e.1, url := u }
      | .other => none)
  | none => []

/-- The walk over the remaining `dlData` entries (`key !== 'all' && key !==
'glb'`): string values starting with `http`. -/
def dlExtra (d : DlData) : List Download :=
  d.extra.filterMap (fun e =>
    match e.2 with
    | .str u => if jsStartsWith u "http" then some { format := e.1, url := u } else none
    | .other => none)

/-- All downloads extracted from the job's own payload (`latestRapid.downloads`),
in push order; an absent payload yields none. -/
def jobDownloads (dl : Option DlData) : List Download :=
  match dl with
  | some d => dlGlb d ++ dlAll d ++ dlExtra d
  | none => []

/-- The ready-branch fallback over `rawmodel.data.downloads`: every entry
whose value is a string starting with `http` (no key exclusions here). -/
def rawFallbackReady (rawDl : Option (List (String × JsVal))) : List Download :=
  match rawDl with
  | some entries =>
    entries.filterMap (fun e =>
      match e.2 with
      | .str u => if jsStartsWith u "http" then some { format := fallbackFormat e.1, url := u }
                  else none
      | .other => none)
  | none => []

/-- The no-jobs walk over `rawmodel.data.downloads`: http string values whose
key contains neither `error` nor `info`. -/
def rawFallbackNoJobs (rawDl : Option (List (String × JsVal))) : List Download :=
  match rawDl with
  | some entries =>
    entries.filterMap (fun e =>
      match e.2 with
      | .str u =>
        if jsStartsWith u "http" && !(strIncludes e.1 "error") && !(strIncludes e.1 "info") then
          some { format := fallbackFormat e.1, url := u }
        else none
      | .other => none)
  | none => []

/-- Embeds `Math.max(20, Math.min(50, rapidProgress))`. -/
def qClamp (p : ℚ) : ℚ := max 20 (min 50 p)

/-- Embeds `Math.max(50, Math.min(95, rapidProgress || 75))`. -/
def pClamp (p : ℚ) : ℚ := max 50 (min 95 (if p = 0 then 75 else p))

/-- Embeds `Math.max(50, Math.min(90, rapidProgress || 60))` (default branch). -/
def dClamp (p : ℚ) : ℚ := max 50 (min 90 (if p = 0 then 60 else p))

/-- The `queued`-like case labels of the status switch. -/
def isQueuedLike (st : String) : Bool :=
  st == "queued" || st == "pending" || st == "waiting"

/-- The `processing`-like case labels of the status switch. -/
def isProcessingLike (st : String) : Bool :=
  st == "processing" || st == "running" || st == "optimizing"

/-- The terminal-success case labels of the status switch. -/
def isSuccessLike (st : String) : Bool :=
  st == "done" || st == "completed" || st == "finished" || st == "ready" || st == "success"

/-- The terminal-failure case labels of the status switch. -/
def isFailureLike (st : String) : Bool :=
  st == "failed" || st == "error" || st == "cancelled"

/-- The `switch (rapidStatus)` of the status route, applied to the lowercased
status string: stage, (pre-rounding) progress, and the downloads collected in
the `ready` branch (job payload first, asset-level fallback only if that
yielded nothing). -/
def statusSwitch (st : String) (p : ℚ) (jobDl : Option DlData)
    (rawDl : Option (List (String × JsVal))) : String × ℚ × List Download :=
  if isQueuedLike st then ("queued", qClamp p, [])
  else if isProcessingLike st then ("processing", pClamp p, [])
  else if isSuccessLike st then
    let ds := jobDownloads jobDl
    let ds := if ds.isEmpty then rawFallbackReady rawDl else ds
    ("ready", 100, ds)
  else if isFailureLike st then ("error", 0, [])
  else ("processing", dClamp p, [])

/-- Embeds `rapidList[rapidList.length - 1]`. -/
def latestOf (x : RapidModel) (xs : List RapidModel) : RapidModel :=
  (x :: xs).getLast (List.cons_ne_nil x xs)

/-- The `GET /api/status/:id` handler of `routes/meshOptimizer.js`.  `raw` is
the `rpSafe` read of the asset (an error is a 404); `rapids` the `rpSafe`
listing of its rapidmodels (an error leaves the list empty, as
`Array.isArray` fails on the error object). -/
def statusResponse (raw : Rp RawModel) (rapids : Rp (List RapidModel)) : StatusResp :=
  match raw with
  | .err _ => { status := 404, stage := "", progress := 0, rapidmodelId := none, downloads := [] }
  | .ok rawmodel =>
    let rapidList := match rapids with
      | .ok l => l
      | .err _ => []
    match rapidList with
    | [] =>
      let ds := rawFallbackNoJobs rawmodel.downloads
      if ds.isEmpty then
        { status := 200, stage := "queued", progress := 30, rapidmodelId := none,
          downloads := ds.filter (fun d => d.url != "") }
      else
        { status := 200, stage := "ready", progress := 100, rapidmodelId := none,
          downloads := ds.filter (fun d => d.url != "") }
    | x :: xs =>
      let latest := latestOf x xs
      let st := jsToLower (latest.optimization_status.getD "")
      let r := statusSwitch st latest.progress latest.downloads rawmodel.downloads
      { status := 200, stage := r.1, progress := round r.2.1, rapidmodelId := some latest.id,
        downloads := r.2.2.filter (fun d => d.url != "") }

/-! ### The `App.vue` polling loop (`pollStatus`) -/

/-- The ETA text shown by the processing card, as an enumeration of the
string templates the loop assigns. -/
inductive EtaText where
  | calculating
  | approx (ms : ℚ)
  | finalizing
  | longer
  | done
  | errorShown
deriving DecidableEq, Repr

/-- One parsed `/api/status/:id` response as the poll loop reads it. -/
structure StatusObs where
  stage : Option String
  progress : ℚ
  downloads : List Download
  rapidmodelId : Option Nat
deriving DecidableEq, Repr

/-- Embeds `String(status.stage || 'unknown')`. -/
def effStage (s : Option String) : String :=
  match s with
  | none => "unknown"
  | some t => if t = "" then "unknown" else t

/-- The per-session state of `pollStatus` in `App.vue`, together with the
reactive display state it writes and the persisted `etaAvg_*` values
(`avgQ`/`avgP`, kept as the raw stored numbers). -/
structure PollState where
  progress : ℚ
  displayStage : String
  eta : EtaText
  indeterminate : Bool
  currentStage : String
  stuck : Nat
  maxStuck : Nat
  nudges : Nat
  queueStart : ℚ
  procStart : ℚ
  startedAt : ℚ
  avgQ : ℚ
  avgP : ℚ
  delay : ℚ
  downloads : List Download
  rapidmodelId : Option Nat
  halted : Bool
deriving DecidableEq, Repr

/-- Embeds `ETA_DEFAULTS.queued` (45 s). -/
def ETA_DEFAULT_QUEUED : ℚ := 45000

/-- Embeds `ETA_DEFAULTS.processing` (240 s). -/
def ETA_DEFAULT_PROCESSING : ℚ := 240000

/-- Embeds `getAvgMs`: the stored value when finite and positive, else the default. -/
def resolveAvg (stored dflt : ℚ) : ℚ :=
  if 0 < stored then stored else dflt

/-- Embeds `updateAvgMs`: `Math.round((1 - 0.3) * prev + 0.3 * sample)` where `prev`
is the default-resolved current average. -/
def emaNext (prev sample : ℚ) : ℚ :=
  ((round ((1 - (0.3 : ℚ)) * prev + (0.3 : ℚ) * sample) : ℤ) : ℚ)

/-- The ease-out curve `1 - (1 - t)^2`. -/
def easeOut (t : ℚ) : ℚ := 1 - (1 - t) ^ 2

/-- Embeds `progressForStage(stage, elapsedMs, avgMs)` from `App.vue`. -/
def progressForStage (queued : Bool) (elapsedMs avgMs : ℚ) : ℚ :=
  let t := min 1 (elapsedMs / max 1 avgMs)
  let eased := easeOut t
  if queued then 20 + eased * (50 - 20) else 50 + eased * (95 - 50)

/-- One update of the stuck detector: given the counter, the current retry
threshold and whether this poll looks stuck, returns the new counter, the
new threshold and whether the add-formats nudge fired. -/
def stuckStep (cnt maxR : Nat) (isStuck : Bool) : Nat × Nat × Bool :=
  if isStuck then
    let c := cnt + 1
    if maxR ≤ c then (0, 15, true) else (c, maxR, false)
  else (0, maxR, false)

/-- The stuck condition of a poll:
`p >= 95 && p < 100 && (!Array.isArray(status.downloads) || status.downloads.length === 0)`. -/
def obsStuck (p : ℚ) (dls : List Download) : Bool :=
  decide (95 ≤ p) && decide (p < 100) && dls.isEmpty

/-- The mutually exclusive stage branches of the loop body (lines computing
`p`, `state.eta` and `state.indeterminate` for `queued` / `processing` /
`ready` / unknown stages), as a selector over the already-updated transition
state: given the effective stage, the reported progress, the reported
downloads, the (possibly just-updated) stored averages, stage-entry
timestamps, session start and current time, it returns the candidate
progress, the ETA text and the indeterminate flag.  (The `error` branch is
handled by the caller, since it breaks out before the display update.) -/
def stagePEI (stage : String) (p0 : ℚ) (dls : List Download)
    (avgQ1 avgP1 qs1 ps1 startedAt now : ℚ) : ℚ × EtaText × Bool :=
  if stage == "queued" then
    let avg := resolveAvg avgQ1 ETA_DEFAULT_QUEUED
    let elapsed := now - (if qs1 = 0 then startedAt else qs1)
    let p1 := max p0 (progressForStage true elapsed avg)
    let eta1 := if avg * (1.75 : ℚ) < elapsed then EtaText.longer
                else EtaText.approx (max 5000 (avg - elapsed))
    (p1, eta1, false)
  else if stage == "processing" then
    let avg := resolveAvg avgP1 ETA_DEFAULT_PROCESSING
    let elapsed := now - (if ps1 = 0 then startedAt else ps1)
    let p1 := max p0 (progressForStage false elapsed avg)
    if decide (95 ≤ p1) && dls.isEmpty then
      (p1, EtaText.finalizing, true)
    else
      let eta1 := if avg * (1.75 : ℚ) < elapsed then EtaText.longer
                  else EtaText.approx (max 10000 (avg - elapsed))
      (p1, eta1, false)
  else if stage == "ready" then
    (100, EtaText.done, false)
  else
    (p0, EtaText.calculating, true)

/-- The common tail of a successful poll iteration: the reactive-state writes
(`state.progress = Math.min(100, Math.max(state.progress, p))`,
`state.stage = stage`, the downloads/rapidmodelId captures), the delay
update, and the loop-exit test for `ready` with downloads. -/
def finishTick (s : PollState) (obs : StatusObs) (stage : String) (p1 : ℚ)
    (eta1 : EtaText) (indet : Bool) (stuck1 maxStuck1 nudges1 : Nat)
    (qs1 ps1 avgQ1 avgP1 : ℚ) : PollState :=
  { progress := min 100 (max s.progress p1)
    displayStage := stage
    eta := eta1
    indeterminate := indet
    currentStage := stage
    stuck := stuck1
    maxStuck := maxStuck1
    nudges := nudges1
    queueStart := qs1
    procStart := ps1
    startedAt := s.startedAt
    avgQ := avgQ1
    avgP := avgP1
    delay := if decide (95 ≤ p1) && (stage == "processing") then min 3000 s.delay
             else min 8000 ((⌊s.delay * (1.2 : ℚ)⌋ : ℤ) : ℚ)
    downloads := if obs.downloads.isEmpty then s.downloads else obs.downloads
    rapidmodelId := match obs.rapidmodelId with
                    | some n => if n = 0 then s.rapidmodelId else some n
                    | none => s.rapidmodelId
    halted := stage == "ready" && !obs.downloads.isEmpty }

/-- One iteration of the `while (!stop)` body of `pollStatus` in `App.vue` at
wall-clock `now`.  `none` is a thrown fetch (the `catch` branch); a `halted`
state records that the loop already exited (`break`), after which nothing
further happens.  The mutually exclusive stage branches are transcribed as
one selector `pei` for the (progress, eta, indeterminate) updates plus the
common tail (`finishTick`); the `error` branch breaks before the
displayed-progress update, leaving progress, displayed stage and downloads
untouched. -/
def pollTick (s : PollState) (inp : Option StatusObs) (now : ℚ) : PollState :=
  if s.halted then s
  else
    match inp with
    | none =>
      { s with indeterminate := true,
               delay := min 10000 ((⌊s.delay * (1.5 : ℚ)⌋ : ℤ) : ℚ) }
    | some obs =>
      let stage := effStage obs.stage
      let p0 := obs.progress
      let sr := stuckStep s.stuck s.maxStuck (obsStuck p0 obs.downloads)
      let nudges1 := s.nudges + (if sr.2.2 then 1 else 0)
      let trans : Bool := stage != s.currentStage
      let qs1 := if trans && (stage == "queued") then now else s.queueStart
      let avgQ1 :=
        if trans && (stage == "processing") && decide (0 < qs1) then
          emaNext (resolveAvg s.avgQ ETA_DEFAULT_QUEUED) (now - qs1)
        else if trans && (stage == "ready") && (s.currentStage == "queued")
            && decide (0 < qs1) then
          emaNext (resolveAvg s.avgQ ETA_DEFAULT_QUEUED) (now - qs1)
        else s.avgQ
      let ps1 := if trans && (stage == "processing") then now else s.procStart
      let avgP1 :=
        if trans && (stage == "ready") && (s.currentStage == "processing")
            && decide (0 < s.procStart) then
          emaNext (resolveAvg s.avgP ETA_DEFAULT_PROCESSING) (now - s.procStart)
        else s.avgP
      let pei := stagePEI stage p0 obs.downloads avgQ1 avgP1 qs1 ps1 s.startedAt now
      if stage == "error" then
        { s with eta := EtaText.errorShown,
                 indeterminate := false,
                 currentStage := stage,
                 stuck := sr.1,
                 maxStuck := sr.2.1,
                 nudges := nudges1,
                 queueStart := qs1,
                 procStart := ps1,
                 avgQ := avgQ1,
                 avgP := avgP1,
                 halted := true }
      else
        finishTick s obs stage pei.1 pei.2.1 pei.2.2 sr.1 sr.2.1 nudges1 qs1 ps1 avgQ1 avgP1

/-- Fold of `pollTick` over a sequence of `(response, time)` pairs. -/
def runPoll (s : PollState) : List (Option StatusObs × ℚ) → PollState
  | [] => s
  | (o, t) :: rest => runPoll (pollTick s o t) rest

/-- The sequence of displayed progress values along a run, starting with the
current one. -/
def progressTrace (s : PollState) : List (Option StatusObs × ℚ) → List ℚ
  | [] => [s.progress]
  | (o, t) :: rest => s.progress :: progressTrace (pollTick s o t) rest

/-- The session state at the top of `pollStatus` (`startedAt` is
`performance.now()` at entry; `storedQ`/`storedP` the persisted `etaAvg_*`
values, possibly invalid). -/
def initPoll (startedAt storedQ storedP : ℚ) : PollState :=
  { progress := 0
    displayStage := "waiting"
    eta := EtaText.calculating
    indeterminate := false
    currentStage := "waiting"
    stuck := 0
    maxStuck := 10
    nudges := 0
    queueStart := 0
    procStart := 0
    startedAt := startedAt
    avgQ := storedQ
    avgP := storedP
    delay := 1000
    downloads := []
    rapidmodelId := none
    halted := false }

/-! ### The standalone `statusPoller.ts` helper -/

/-- One `/api/status` response as `statusPoller.ts` reads it. -/
structure SpObs where
  progress : ℚ
  stage : Option String
deriving DecidableEq, Repr

/-- The ETA text of `statusPoller.ts`. -/
inductive SpEta where
  | dots
  | calculating
  | human (ms : ℚ)
deriving DecidableEq, Repr

/-- What `statusPoller.ts` hands to its `onUpdate` display callback. -/
structure SpOut where
  progress : ℚ
  stage : String
  eta : SpEta
  indeterminate : Bool
deriving DecidableEq, Repr

/-- The module-level state of `statusPoller.ts`. -/
structure SpState where
  lastProgress : ℚ
  lastTick : ℚ
  emaSpeed : ℚ
  flatTicks : Nat
deriving DecidableEq, Repr

/-- The state after the reset at the top of `pollStatus` in
`statusPoller.ts` (`lastTick = performance.now()` at entry). -/
def spInit (t0 : ℚ) : SpState :=
  { lastProgress := 0, lastTick := t0, emaSpeed := 0, flatTicks := 0 }

/-- One iteration of the `while (true)` body of `pollStatus` in
`statusPoller.ts`: the progress handed to `onUpdate` is the raw reported
progress clamped to `[0, 100]`, with no monotonic clamp against the
previous tick. -/
def spTick (st : SpState) (obs : Option SpObs) (t1 : ℚ) : SpState × SpOut :=
  match obs with
  | none =>
    (st, { progress := st.lastProgress, stage := "unknown", eta := SpEta.dots,
           indeterminate := true })
  | some o =>
    let p := max 0 (min 100 o.progress)
    let stage := effStage o.stage
    let dt := max 1 (t1 - st.lastTick)
    let dp := max 0 (p - st.lastProgress)
    let flat1 := if dp = 0 then st.flatTicks + 1 else 0
    let inst := dp / dt
    let ema1 := if st.emaSpeed = 0 then inst
                else (0.7 : ℚ) * st.emaSpeed + (0.3 : ℚ) * inst
    let eta := if 0 < ema1 ∧ p < 100 then
                 SpEta.human (min (45 * 60 * 1000) (max (5 * 1000) ((100 - p) / ema1)))
               else SpEta.calculating
    let indet := decide (6 ≤ flat1) && decide (p < 100)
    ({ lastProgress := p, lastTick := t1, emaSpeed := ema1, flatTicks := flat1 },
     { progress := p, stage := stage, eta := eta, indeterminate := indet })

/-! ### Concrete fixtures used by witnesses and counterexamples -/

/-- An upstream catalog whose every listing page contains one asset tagged
`sha256-abc`. -/
def hitOracle : Oracle :=
  fun _ => Rp.ok { items := [{ id := 7, name := "m", tags := ["sha256-abc"] }], next := none }

/-- An upstream service whose every call fails at transport level. -/
def errOracle : Oracle := fun _ => Rp.err "down"

/-- A status response with progress 95, no downloads, stage `processing`. -/
def stuckObs : StatusObs :=
  { stage := some "processing", progress := 95, downloads := [], rapidmodelId := none }

/-- The stuck-detector automaton folded over a sequence of stuck bits:
carries (counter, threshold, nudge count). -/
def stuckFold : Nat × Nat × Nat → List Bool → Nat × Nat × Nat
  | acc, [] => acc
  | (c, m, k), b :: bs =>
    let r := stuckStep c m b
    stuckFold (r.1, r.2.1, k + (if r.2.2 then 1 else 0)) bs


/-! ## Lemmas about the JS-set deduplication -/

theorem mem_dedupFirst (a : String) (l : List String) : ∀ seen,
    a ∈ dedupFirst seen l ↔ (a ∈ l ∧ a ∉ seen) := by
  induction l with
  | nil => intro seen; simp [dedupFirst]
  | cons x xs ih =>
    intro seen
    by_cases hx : x ∈ seen
    · rw [dedupFirst, if_pos hx, ih seen]
      constructor
      · rintro ⟨h1, h2⟩
        exact ⟨List.mem_cons_of_mem _ h1, h2⟩
      · rintro ⟨h1, h2⟩
        rcases List.mem_cons.mp h1 with rfl | h1
        · exact absurd hx h2
        · exact ⟨h1, h2⟩
    · rw [dedupFirst, if_neg hx]
      constructor
      · intro h
        rcases List.mem_cons.mp h with rfl | h
        · exact ⟨List.mem_cons_self _ _, hx⟩
        · rw [ih (x :: seen)] at h
          exact ⟨List.mem_cons_of_mem _ h.1, fun hs => h.2 (List.mem_cons_of_mem _ hs)⟩
      · rintro ⟨h1, h2⟩
        rcases List.mem_cons.mp h1 with rfl | h1
        · exact List.mem_cons_self _ _
        · rcases eq_or_ne a x with rfl | hax
          · exact List.mem_cons_self _ _
          · refine List.mem_cons_of_mem _ ?_
            rw [ih (x :: seen)]
            refine ⟨h1, fun hs => ?_⟩
            rcases List.mem_cons.mp hs with h | h
            · exact hax h
            · exact h2 h

theorem nodup_dedupFirst (l : List String) : ∀ seen, (dedupFirst seen l).Nodup := by
  induction l with
  | nil => intro seen; simp [dedupFirst]
  | cons x xs ih =>
    intro seen
    by_cases hx : x ∈ seen
    · rw [dedupFirst, if_pos hx]
      exact ih seen
    · rw [dedupFirst, if_neg hx]
      refine List.nodup_cons.mpr ⟨fun hmem => ?_, ih (x :: seen)⟩
      rw [mem_dedupFirst] at hmem
      exact hmem.2 (List.mem_cons_self x seen)

theorem mem_mergeTags (a : String) (c i : List String) :
    a ∈ mergeTags c i ↔ ((a ∈ c ∧ a ≠ "") ∨ a ∈ i) := by
  rw [mergeTags, mem_dedupFirst]
  simp [extractTagNames, List.mem_filter]

/-- C3: the claim as stated is false: the merge reads the asset's current
tags through `filter(Boolean)`, so a pre-existing empty-string tag is
dropped; the result is not a superset of every pre-existing tag set. -/
theorem c3_counterexample :
    mergeTags [""] ["a"] = ["a"] ∧ "" ∈ ([""] : List String) ∧ "" ∉ mergeTags [""] ["a"] := by
  decide

/-- C3 (amended): the tag merge produces no duplicates, keeps every nonempty
pre-existing tag, and is idempotent at the level of the resulting tag set:
merging the written-back tags with the same incoming list again changes
membership in nothing. -/
theorem c3_tag_merge_amended (c i : List String) :
    (mergeTags c i).Nodup ∧
    (∀ a, a ∈ c → a ≠ "" → a ∈ mergeTags c i) ∧
    (∀ a, a ∈ mergeTags (mergeTags c i) i ↔ a ∈ mergeTags c i) := by
  refine ⟨nodup_dedupFirst _ _, ?_, ?_⟩
  · intro a hc hne
    rw [mem_mergeTags]
    exact Or.inl ⟨hc, hne⟩
  · intro a
    simp only [mem_mergeTags]
    tauto

/-- Witness for C3 (amended) at a concrete merge. -/
theorem c3_witness :
    (mergeTags ["a"] ["b"]).Nodup ∧ "a" ∈ mergeTags ["a"] ["b"] :=
  ⟨(c3_tag_merge_amended ["a"] ["b"]).1,
   (c3_tag_merge_amended ["a"] ["b"]).2.1 "a" (by decide) (by decide)⟩

/-! ## Lemmas about the dedup page scans -/

theorem scanLoop_err_none (m target : String) (ep : Option String) (fuel : Nat) :
    (scanLoop (fun _ => Rp.err m) target ep fuel).1 = none := by
  cases fuel with
  | zero => cases ep <;> rfl
  | succ n =>
    cases ep with
    | none => rfl
    | some e => rfl

theorem tryVariants_none (f : String → Option Item × Nat)
    (hf : ∀ v, (f v).1 = none) : ∀ l, (tryVariants f l).1 = none := by
  intro l
  induction l with
  | nil => rfl
  | cons v vs ih =>
    rw [tryVariants]
    rcases hfv : f v with ⟨a, b⟩
    have ha : a = none := by rw [← hf v, hfv]
    subst ha
    simpa using ih

theorem findByHash_err_none (m : String) (hash : JsArg) :
    (findByHash (fun _ => Rp.err m) hash).1 = none := by
  cases hash with
  | absent => rfl
  | nonstr => rfl
  | str h =>
    by_cases hh : h = ""
    · simp [findByHash, hh]
    · rw [findByHash, if_neg hh]
      have h1 : ∀ v, (searchByQ (fun _ => Rp.err m) v).1 = none := fun v =>
        scanLoop_err_none m (jsToLower v) _ 10
      have h2 : ∀ v, (scanAllPagesForTag (fun _ => Rp.err m) (jsToLower v)).1 = none := fun v =>
        scanLoop_err_none m (jsToLower v) _ 20
      rcases ht1 : tryVariants (fun v => searchByQ (fun _ => Rp.err m) v) (hashVariants h)
        with ⟨o1, n1⟩
      have ho1 : o1 = none := by rw [← tryVariants_none _ h1 (hashVariants h), ht1]
      subst ho1
      rcases ht2 : tryVariants (fun v => scanAllPagesForTag (fun _ => Rp.err m) (jsToLower v))
        (hashVariants h) with ⟨o2, n2⟩
      have ho2 : o2 = none := by rw [← tryVariants_none _ h2 (hashVariants h), ht2]
      subst ho2
      simpa using tryVariants_none _ h2 (shortHashVariants h)

/-- C4: for every hash argument and every upstream behaviour, the
find-by-hash route answers 200 or 400 (never a 5xx); whenever the resolver
comes back empty the body reports `found:false`; and against an upstream
that fails on every call the resolver itself returns "not found" instead of
propagating the failure. -/
theorem c4_find_by_hash_degrades (oracle : Oracle) (hash : JsArg) :
    ((findByHashRoute oracle hash).status = 200 ∨ (findByHashRoute oracle hash).status = 400) ∧
    ((findByHash oracle hash).1 = none → (findByHashRoute oracle hash).found = false) ∧
    (∀ m : String, (findByHash (fun _ => Rp.err m) hash).1 = none) := by
  refine ⟨?_, ?_, fun m => findByHash_err_none m hash⟩
  · rw [findByHashRoute]
    split
    · exact Or.inr rfl
    · split <;> exact Or.inl rfl
  · intro h0
    rw [findByHashRoute, h0]
    split <;> rfl

/-- Witness for C4 at a concrete all-failing upstream and hash. -/
theorem c4_witness :
    (findByHashRoute (fun _ => Rp.err "down") (JsArg.str "ab")).found = false := by
  have h := c4_find_by_hash_degrades (fun _ => Rp.err "down") (JsArg.str "ab")
  exact h.2.1 (h.2.2 "down")

theorem scanLoop_pages_le (oracle : Oracle) (target : String) :
    ∀ (fuel : Nat) (ep : Option String), (scanLoop oracle target ep fuel).2 ≤ fuel := by
  intro fuel
  induction fuel with
  | zero => intro ep; cases ep <;> simp [scanLoop]
  | succ n ih =>
    intro ep
    cases ep with
    | none => simp [scanLoop]
    | some e =>
      rw [scanLoop]
      split
      · simp
      · rename_i page heq
        split
        · simp
        · simp only
          have := ih (nextEndpoint page)
          omega

theorem serverScanLoop_adversarial (target : String) :
    ∀ (n : Nat) (ep : String), serverScanLoop adversarialOracle target (some ep) n = none := by
  intro n
  induction n with
  | zero => intro ep; rfl
  | succ k ih =>
    intro ep
    rw [serverScanLoop]
    exact ih "/rawmodel?page=next"

/-- C5: the claim as stated is false for the legacy `server.js` scans, which
follow `links.next` with no page cap: against a catalog that always supplies
a further page, the full scan is still fetching after 21 pages (and after
any number of pages), rather than stopping at about 20 with "not found". -/
theorem c5_counterexample :
    serverScanAllPagesForTag adversarialOracle "sha256-x" 21 = none := by decide

/-- C5 (amended): the `routes/meshOptimizer.js` scans are bounded — a
targeted query search fetches at most 10 pages and a full catalog scan at
most 20, against every upstream behaviour, with bound exhaustion yielding
"not found" — while the legacy `server.js` scans follow next links without
any cap and need not terminate (against the always-next catalog they are
still running after every number of pages). -/
theorem c5_page_scans_bounded_amended (oracle : Oracle) (q t : String) :
    (searchByQ oracle q).2 ≤ 10 ∧ (scanAllPagesForTag oracle t).2 ≤ 20 ∧
    (∀ n : Nat, serverScanAllPagesForTag adversarialOracle t n = none) :=
  ⟨scanLoop_pages_le oracle (jsToLower q) 10 _,
   scanLoop_pages_le oracle t 20 _,
   fun n => serverScanLoop_adversarial t n "/rawmodel"⟩

/-! ## Lemmas about the status normalizer -/

theorem round_bounds (a b : ℤ) {q : ℚ} (h1 : (a : ℚ) ≤ q) (h2 : q ≤ (b : ℚ)) :
    a ≤ round q ∧ round q ≤ b := by
  constructor
  · rw [round_eq, Int.le_floor]
    linarith
  · rw [round_eq]
    have hb : ⌊q + 1 / 2⌋ < b + 1 := by
      rw [Int.floor_lt]
      push_cast
      linarith
    omega

theorem notQueued_of_processing {st : String} (h : isProcessingLike st = true) :
    isQueuedLike st = false := by
  simp only [isProcessingLike, Bool.or_eq_true, beq_iff_eq] at h
  rcases h with (h | h) | h <;> subst h <;> decide

theorem notQueued_of_success {st : String} (h : isSuccessLike st = true) :
    isQueuedLike st = false := by
  simp only [isSuccessLike, Bool.or_eq_true, beq_iff_eq] at h
  rcases h with (((h | h) | h) | h) | h <;> subst h <;> decide

theorem notProcessing_of_success {st : String} (h : isSuccessLike st = true) :
    isProcessingLike st = false := by
  simp only [isSuccessLike, Bool.or_eq_true, beq_iff_eq] at h
  rcases h with (((h | h) | h) | h) | h <;> subst h <;> decide

theorem notQueued_of_failure {st : String} (h : isFailureLike st = true) :
    isQueuedLike st = false := by
  simp only [isFailureLike, Bool.or_eq_true, beq_iff_eq] at h
  rcases h with (h | h) | h <;> subst h <;> decide

theorem notProcessing_of_failure {st : String} (h : isFailureLike st = true) :
    isProcessingLike st = false := by
  simp only [isFailureLike, Bool.or_eq_true, beq_iff_eq] at h
  rcases h with (h | h) | h <;> subst h <;> decide

theorem notSuccess_of_failure {st : String} (h : isFailureLike st = true) :
    isSuccessLike st = false := by
  simp only [isFailureLike, Bool.or_eq_true, beq_iff_eq] at h
  rcases h with (h | h) | h <;> subst h <;> decide

theorem statusSwitch_queued (st : String) (p : ℚ) (jd : Option DlData)
    (rd : Option (List (String × JsVal))) (h : isQueuedLike st = true) :
    statusSwitch st p jd rd = ("queued", qClamp p, []) := by
  simp [statusSwitch, h]

theorem statusSwitch_processing (st : String) (p : ℚ) (jd : Option DlData)
    (rd : Option (List (String × JsVal))) (h : isProcessingLike st = true) :
    statusSwitch st p jd rd = ("processing", pClamp p, []) := by
  simp [statusSwitch, notQueued_of_processing h, h]

theorem statusSwitch_success (st : String) (p : ℚ) (jd : Option DlData)
    (rd : Option (List (String × JsVal))) (h : isSuccessLike st = true) :
    statusSwitch st p jd rd =
      ("ready", 100,
        if (jobDownloads jd).isEmpty then rawFallbackReady rd else jobDownloads jd) := by
  simp [statusSwitch, notQueued_of_success h, notProcessing_of_success h, h]

theorem statusSwitch_failure (st : String) (p : ℚ) (jd : Option DlData)
    (rd : Option (List (String × JsVal))) (h : isFailureLike st = true) :
    statusSwitch st p jd rd = ("error", 0, []) := by
  simp [statusSwitch, notQueued_of_failure h, notProcessing_of_failure h,
    notSuccess_of_failure h, h]

theorem statusSwitch_default (st : String) (p : ℚ) (jd : Option DlData)
    (rd : Option (List (String × JsVal))) (h1 : isQueuedLike st = false)
    (h2 : isProcessingLike st = false) (h3 : isSuccessLike st = false)
    (h4 : isFailureLike st = false) :
    statusSwitch st p jd rd = ("processing", dClamp p, []) := by
  simp [statusSwitch, h1, h2, h3, h4]

theorem qClamp_bounds (p : ℚ) : 20 ≤ qClamp p ∧ qClamp p ≤ 50 := by
  unfold qClamp
  exact ⟨le_max_left _ _, max_le (by norm_num) (min_le_left _ _)⟩

theorem pClamp_bounds (p : ℚ) : 50 ≤ pClamp p ∧ pClamp p ≤ 95 := by
  unfold pClamp
  exact ⟨le_max_left _ _, max_le (by norm_num) (min_le_left _ _)⟩

theorem statusResponse_jobs (rawmodel : RawModel) (x : RapidModel) (xs : List RapidModel) :
    statusResponse (Rp.ok rawmodel) (Rp.ok (x :: xs)) =
      { status := 200,
        stage := (statusSwitch (jsToLower ((latestOf x xs).optimization_status.getD ""))
          (latestOf x xs).progress (latestOf x xs).downloads rawmodel.downloads).1,
        progress := round (statusSwitch (jsToLower ((latestOf x xs).optimization_status.getD ""))
          (latestOf x xs).progress (latestOf x xs).downloads rawmodel.downloads).2.1,
        rapidmodelId := some (latestOf x xs).id,
        downloads := (statusSwitch (jsToLower ((latestOf x xs).optimization_status.getD ""))
          (latestOf x xs).progress (latestOf x xs).downloads
            rawmodel.downloads).2.2.filter (fun d => d.url != "") } := rfl

/-- C2: for every asset record and nonempty job list, the status normalizer
maps the selected job's (lowercased) status string totally onto the four
stages: queued-like strings give stage `queued` with progress in [20, 50],
processing-like strings give `processing` with progress in [50, 95],
terminal-success strings force `ready`/100, terminal-failure strings force
`error`/0, and every unrecognized string (matching none of the four label
sets) gives `processing`, with progress 60 when the upstream reported no
progress. -/
theorem c2_status_mapping_total (rawmodel : RawModel) (x : RapidModel) (xs : List RapidModel) :
    ((statusResponse (Rp.ok rawmodel) (Rp.ok (x :: xs))).stage = "queued" ∨
     (statusResponse (Rp.ok rawmodel) (Rp.ok (x :: xs))).stage = "processing" ∨
     (statusResponse (Rp.ok rawmodel) (Rp.ok (x :: xs))).stage = "ready" ∨
     (statusResponse (Rp.ok rawmodel) (Rp.ok (x :: xs))).stage = "error") ∧
    (isQueuedLike (jsToLower ((latestOf x xs).optimization_status.getD "")) = true →
      (statusResponse (Rp.ok rawmodel) (Rp.ok (x :: xs))).stage = "queued" ∧
      20 ≤ (statusResponse (Rp.ok rawmodel) (Rp.ok (x :: xs))).progress ∧
      (statusResponse (Rp.ok rawmodel) (Rp.ok (x :: xs))).progress ≤ 50) ∧
    (isProcessingLike (jsToLower ((latestOf x xs).optimization_status.getD "")) = true →
      (statusResponse (Rp.ok rawmodel) (Rp.ok (x :: xs))).stage = "processing" ∧
      50 ≤ (statusResponse (Rp.ok rawmodel) (Rp.ok (x :: xs))).progress ∧
      (statusResponse (Rp.ok rawmodel) (Rp.ok (x :: xs))).progress ≤ 95) ∧
    (isSuccessLike (jsToLower ((latestOf x xs).optimization_status.getD "")) = true →
      (statusResponse (Rp.ok rawmodel) (Rp.ok (x :: xs))).stage = "ready" ∧
      (statusResponse (Rp.ok rawmodel) (Rp.ok (x :: xs))).progress = 100) ∧
    (isFailureLike (jsToLower ((latestOf x xs).optimization_status.getD "")) = true →
      (statusResponse (Rp.ok rawmodel) (Rp.ok (x :: xs))).stage = "error" ∧
      (statusResponse (Rp.ok rawmodel) (Rp.ok (x :: xs))).progress = 0) ∧
    (isQueuedLike (jsToLower ((latestOf x xs).optimization_status.getD "")) = false →
     isProcessingLike (jsToLower ((latestOf x xs).optimization_status.getD "")) = false →
     isSuccessLike (jsToLower ((latestOf x xs).optimization_status.getD "")) = false →
     isFailureLike (jsToLower ((latestOf x xs).optimization_status.getD "")) = false →
      (statusResponse (Rp.ok rawmodel) (Rp.ok (x :: xs))).stage = "processing" ∧
      ((latestOf x xs).progress = 0 →
        (statusResponse (Rp.ok rawmodel) (Rp.ok (x :: xs))).progress = 60)) := by
  rw [statusResponse_jobs]
  refine ⟨?_, ?_, ?_, ?_, ?_, ?_⟩
  · unfold statusSwitch
    split_ifs <;> simp
  · intro h
    rw [statusSwitch_queued _ _ _ _ h]
    have hb := qClamp_bounds (latestOf x xs).progress
    have hr := round_bounds 20 50 (by push_cast; exact hb.1) (by push_cast; exact hb.2)
    exact ⟨rfl, hr.1, hr.2⟩
  · intro h
    rw [statusSwitch_processing _ _ _ _ h]
    have hb := pClamp_bounds (latestOf x xs).progress
    have hr := round_bounds 50 95 (by push_cast; exact hb.1) (by push_cast; exact hb.2)
    exact ⟨rfl, hr.1, hr.2⟩
  · intro h
    rw [statusSwitch_success _ _ _ _ h]
    exact ⟨rfl, by norm_num⟩
  · intro h
    rw [statusSwitch_failure _ _ _ _ h]
    exact ⟨rfl, by norm_num⟩
  · intro h1 h2 h3 h4
    rw [statusSwitch_default _ _ _ _ h1 h2 h3 h4]
    refine ⟨rfl, fun hp => ?_⟩
    simp only [hp]
    decide

/-- Witness for C2 at a concrete uppercase queued status (also exercising the
case-insensitive lookup). -/
theorem c2_witness :
    (statusResponse (Rp.ok { downloads := none })
      (Rp.ok [{ id := 3, optimization_status := some "Queued", progress := 0,
                downloads := none }])).stage = "queued" :=
  ((c2_status_mapping_total { downloads := none }
    { id := 3, optimization_status := some "Queued", progress := 0, downloads := none }
    []).2.1 (by decide)).1

/-! ## The ready-branch download fallback (C7) -/

theorem jsStartsWith_http_ne_empty {u : String} (h : jsStartsWith u "http" = true) :
    u ≠ "" := by
  intro he
  subst he
  exact absurd h (by decide)

theorem mem_rawFallbackReady {d : Download} {rd : Option (List (String × JsVal))}
    (h : d ∈ rawFallbackReady rd) : jsStartsWith d.url "http" = true := by
  cases rd with
  | none => simp [rawFallbackReady] at h
  | some entries =>
    simp only [rawFallbackReady, List.mem_filterMap] at h
    obtain ⟨e, _, he⟩ := h
    rcases e with ⟨k, v⟩
    cases v with
    | other => simp at he
    | str u =>
      simp only at he
      split at he
      · next hs =>
        cases he
        exact hs
      · next hs =>
        cases he

/-- C7: the claim as stated is false: in the jobs path, the ready-branch
fallback over the asset-level download map has no `error`/`info` key
exclusion — a terminal job with an empty download payload over an asset
whose only download entry is keyed `error.txt` surfaces that entry. -/
theorem c7_counterexample :
    (statusResponse (Rp.ok { downloads := some [("error.txt", JsVal.str "http://x/e")] })
      (Rp.ok [{ id := 1, optimization_status := some "done", progress := 0,
                downloads := none }])).stage = "ready" ∧
    strIncludes "error.txt" "error" = true ∧
    (statusResponse (Rp.ok { downloads := some [("error.txt", JsVal.str "http://x/e")] })
      (Rp.ok [{ id := 1, optimization_status := some "done", progress := 0,
                downloads := none }])).downloads =
      [{ format := "txt", url := "http://x/e" }] := by
  decide

/-- C7 (amended): on a terminal-success job status whose own download payload
yields no downloads, the normalizer surfaces exactly the asset-level download
entries whose value is a string starting with `http` — with no exclusion of
keys containing `error` or `info` in this path (that exclusion exists only in
the no-jobs branch) — and every surfaced entry's URL starts with `http`, so
entries without a resolvable URL are never reported. -/
theorem c7_ready_fallback_amended (rawmodel : RawModel) (x : RapidModel) (xs : List RapidModel)
    (hs : isSuccessLike (jsToLower ((latestOf x xs).optimization_status.getD "")) = true)
    (hemp : jobDownloads (latestOf x xs).downloads = []) :
    (statusResponse (Rp.ok rawmodel) (Rp.ok (x :: xs))).downloads =
      rawFallbackReady rawmodel.downloads ∧
    ∀ d ∈ (statusResponse (Rp.ok rawmodel) (Rp.ok (x :: xs))).downloads,
      jsStartsWith d.url "http" = true := by
  have hmain : (statusResponse (Rp.ok rawmodel) (Rp.ok (x :: xs))).downloads =
      rawFallbackReady rawmodel.downloads := by
    rw [statusResponse_jobs]
    simp only [statusSwitch_success _ _ _ _ hs, hemp, List.isEmpty_nil, if_true]
    apply List.filter_eq_self.mpr
    intro d hd
    have h2 := jsStartsWith_http_ne_empty (mem_rawFallbackReady hd)
    simpa using h2
  refine ⟨hmain, ?_⟩
  intro d hd
  rw [hmain] at hd
  exact mem_rawFallbackReady hd

/-- Witness for C7 (amended) at a concrete ready status with an empty
job-level download payload and a populated asset-level map. -/
theorem c7_witness :
    (statusResponse (Rp.ok { downloads := some [("m.glb", JsVal.str "http://y")] })
      (Rp.ok [{ id := 1, optimization_status := some "done", progress := 0,
                downloads := none }])).downloads =
      rawFallbackReady (some [("m.glb", JsVal.str "http://y")]) :=
  (c7_ready_fallback_amended { downloads := some [("m.glb", JsVal.str "http://y")] }
    { id := 1, optimization_status := some "done", progress := 0, downloads := none } []
    (by decide) (by decide)).1

/-! ## The start-upload route (C6) -/

theorem truthy_of_findByHash_some {oracle : Oracle} {hash : JsArg} {it : Item}
    (h : (findByHash oracle hash).1 = some it) : hash.truthy = true := by
  cases hash with
  | absent => simp [findByHash] at h
  | nonstr => simp [findByHash] at h
  | str s =>
    by_cases hs : s = ""
    · subst hs
      simp [findByHash] at h
    · simp [JsArg.truthy, bne_iff_ne, hs]

/-- C6: if the request carries a content hash for which the dedup resolver
finds an asset, the response is a 200 with `exists:true`, the found asset's
id, and no signed upload URL; if the resolver finds nothing and the upstream
session-creation response lacks a (truthy) asset id or signed URL for the
uploaded filename, the request fails with 502 — a non-2xx status. -/
theorem c6_start_upload (oracle : Oracle) (startResp : Rp StartResp)
    (modelName filename : Option String) (contentHash : JsArg)
    (hm : truthyOptStr modelName = true) (hf : truthyOptStr filename = true) :
    (∀ hit, (findByHash oracle contentHash).1 = some hit →
      startUploadRoute oracle startResp modelName filename contentHash =
        { status := 200, id := some hit.id, existsFlag := some true, signedUrl := none }) ∧
    ((findByHash oracle contentHash).1 = none →
      ∀ st, startResp = Rp.ok st →
        (truthyOptNat st.id = false ∨ truthyOptStr (st.s3.lookup (filename.getD "")) = false) →
        (startUploadRoute oracle startResp modelName filename contentHash).status = 502 ∧
        300 ≤ (startUploadRoute oracle startResp modelName filename contentHash).status) := by
  constructor
  · intro hit hhit
    have ht := truthy_of_findByHash_some hhit
    simp [startUploadRoute, hm, hf, ht, hhit]
  · intro h0 st hst hbad
    subst hst
    have hded : (if contentHash.truthy then (findByHash oracle contentHash).1 else none)
        = none := by
      split
      · exact h0
      · rfl
    rcases hbad with hb | hb
    · constructor <;> simp [startUploadRoute, hm, hf, hded, hb]
    · constructor <;> simp [startUploadRoute, hm, hf, hded, hb]

/-- Witness for C6: a catalog hit short-circuits with `exists:true` and no
signed URL; with no hit and an upstream response missing the signed URL the
route answers 502. -/
theorem c6_witness :
    startUploadRoute hitOracle (Rp.ok { id := some 5, s3 := [] }) (some "m") (some "f.glb")
        (JsArg.str "abc") =
      { status := 200, id := some 7, existsFlag := some true, signedUrl := none } ∧
    (startUploadRoute errOracle (Rp.ok { id := some 5, s3 := [] }) (some "m") (some "f.glb")
        (JsArg.str "abc")).status = 502 := by
  constructor
  · exact (c6_start_upload hitOracle (Rp.ok { id := some 5, s3 := [] }) (some "m")
      (some "f.glb") (JsArg.str "abc") (by decide) (by decide)).1
      { id := 7, name := "m", tags := ["sha256-abc"] } (by decide)
  · exact ((c6_start_upload errOracle (Rp.ok { id := some 5, s3 := [] }) (some "m")
      (some "f.glb") (JsArg.str "abc") (by decide) (by decide)).2 (by decide)
      { id := some 5, s3 := [] } rfl (by decide)).1

/-! ## The stuck-at-95 detector (C8) -/

theorem pollTick_stuck_fields (s : PollState) (obs : StatusObs) (now : ℚ)
    (hh : s.halted = false) (hdl : obs.downloads = [])
    (herr : effStage obs.stage ≠ "error") :
    (pollTick s (some obs) now).stuck =
        (stuckStep s.stuck s.maxStuck (obsStuck obs.progress obs.downloads)).1 ∧
    (pollTick s (some obs) now).maxStuck =
        (stuckStep s.stuck s.maxStuck (obsStuck obs.progress obs.downloads)).2.1 ∧
    (pollTick s (some obs) now).nudges = s.nudges +
        (if (stuckStep s.stuck s.maxStuck (obsStuck obs.progress obs.downloads)).2.2 then 1
         else 0) ∧
    (pollTick s (some obs) now).halted = false := by
  simp only [pollTick, hh, Bool.false_eq_true, if_false]
  rw [if_neg (by simp [herr])]
  simp [finishTick, hdl]

theorem runPoll_stuck_fold :
    ∀ (inputs : List (StatusObs × ℚ)) (s : PollState),
      s.halted = false →
      (∀ o ∈ inputs, o.1.downloads = [] ∧ effStage o.1.stage ≠ "error") →
      ((runPoll s (inputs.map (fun o => (some o.1, o.2)))).stuck,
       (runPoll s (inputs.map (fun o => (some o.1, o.2)))).maxStuck,
       (runPoll s (inputs.map (fun o => (some o.1, o.2)))).nudges) =
        stuckFold (s.stuck, s.maxStuck, s.nudges)
          (inputs.map (fun o => obsStuck o.1.progress o.1.downloads)) ∧
      (runPoll s (inputs.map (fun o => (some o.1, o.2)))).halted = false := by
  intro inputs
  induction inputs with
  | nil => intro s hh _; exact ⟨rfl, hh⟩
  | cons o rest ih =>
    intro s hh hprop
    have ho := hprop o (List.mem_cons_self _ _)
    have hstep := pollTick_stuck_fields s o.1 o.2 hh ho.1 ho.2
    simp only [List.map_cons, runPoll, stuckFold]
    have ihr := ih (pollTick s (some o.1) o.2) hstep.2.2.2
      (fun x hx => hprop x (List.mem_cons_of_mem _ hx))
    rw [hstep.1, hstep.2.1, hstep.2.2.1] at ihr
    exact ihr

set_option maxRecDepth 8000 in
/-- C8: the claim as stated is false: in a session whose status polls all
report progress 95 with zero downloads, the nudge fires at poll 10 (counter
threshold 10) and then again at poll 25 (threshold raised to 15), so the
window formed by the 20 consecutive such polls number 10 through 29 contains
two firings, not exactly one. -/
theorem c8_counterexample :
    (runPoll (initPoll 0 0 0) (List.replicate 29 (some stuckObs, 0))).nudges = 2 ∧
    (runPoll (initPoll 0 0 0) (List.replicate 9 (some stuckObs, 0))).nudges = 0 := by
  decide

/-- C8 (amended): over the first 20 consecutive status polls of a session
that each report progress in [95, 100) with zero downloads (and no terminal
error), the add-formats nudge fires exactly once — and whenever the detector
fires, it resets the stuck counter to zero. -/
theorem c8_stuck_nudge_amended (t0 aq ap : ℚ) (inputs : List (StatusObs × ℚ))
    (hlen : inputs.length = 20)
    (hstuck : ∀ o ∈ inputs, 95 ≤ o.1.progress ∧ o.1.progress < 100 ∧ o.1.downloads = [] ∧
        effStage o.1.stage ≠ "error") :
    (runPoll (initPoll t0 aq ap) (inputs.map (fun o => (some o.1, o.2)))).nudges = 1 ∧
    (∀ c m : Nat, (stuckStep c m true).2.2 = true → (stuckStep c m true).1 = 0) := by
  constructor
  · have hrun := (runPoll_stuck_fold inputs (initPoll t0 aq ap) rfl
      (fun o ho => ⟨(hstuck o ho).2.2.1, (hstuck o ho).2.2.2⟩)).1
    have hbits : inputs.map (fun o => obsStuck o.1.progress o.1.downloads) =
        List.replicate 20 true := by
      rw [List.eq_replicate_iff]
      refine ⟨by simp [hlen], ?_⟩
      intro b hb
      simp only [List.mem_map] at hb
      obtain ⟨o, ho, hbo⟩ := hb
      obtain ⟨h1, h2, h3, _⟩ := hstuck o ho
      subst hbo
      simp [obsStuck, h3, h1, h2]
    rw [hbits] at hrun
    have h0 : (initPoll t0 aq ap).stuck = 0 := rfl
    have h1 : (initPoll t0 aq ap).maxStuck = 10 := rfl
    have h2 : (initPoll t0 aq ap).nudges = 0 := rfl
    rw [h0, h1, h2] at hrun
    have hcomp : stuckFold (0, 10, 0) (List.replicate 20 true) = (10, 15, 1) := by decide
    rw [hcomp] at hrun
    exact congrArg (fun p => p.2.2) hrun
  · intro c m hfire
    by_cases hc : m ≤ c + 1
    · simp [stuckStep, hc]
    · simp [stuckStep, hc] at hfire

/-- Witness for C8 (amended): 20 stuck polls from a fresh session fire the
nudge exactly once. -/
theorem c8_witness :
    (runPoll (initPoll 0 0 0) ((List.replicate 20 (stuckObs, (0 : ℚ))).map
      (fun o => (some o.1, o.2)))).nudges = 1 :=
  (c8_stuck_nudge_amended 0 0 0 (List.replicate 20 (stuckObs, 0)) (by simp)
    (fun o ho => by
      have he : o = (stuckObs, 0) := List.eq_of_mem_replicate ho
      subst he
      exact ⟨by decide, by decide, rfl, by decide⟩)).1

/-! ## The ETA computation (C9) -/

set_option maxRecDepth 8000 in
/-- C9: the claim as stated is false: in the processing stage, once progress
sits at 95 with no downloads yet, the loop shows the indeterminate
`Finalizing (preparing downloads)…` message even when elapsed time in the
stage far exceeds 1.75× the learned average (here 500000 ms against an
average of 240000 ms), instead of the `taking longer than usual` message the
claim requires. -/
theorem c9_counterexample :
    (pollTick (pollTick (initPoll 0 0 0) (some stuckObs) 0) (some stuckObs) 500000).eta
        = EtaText.finalizing ∧
    (pollTick (initPoll 0 0 0) (some stuckObs) 0).currentStage = "processing" ∧
    (pollTick (initPoll 0 0 0) (some stuckObs) 0).procStart = 0 ∧
    (pollTick (initPoll 0 0 0) (some stuckObs) 0).startedAt = 0 ∧
    resolveAvg (pollTick (initPoll 0 0 0) (some stuckObs) 0).avgP ETA_DEFAULT_PROCESSING
        * (1.75 : ℚ) < 500000 - 0 ∧
    EtaText.finalizing ≠ EtaText.longer := by
  decide

theorem stagePEI_approx_ge {stage : String} {p0 : ℚ} {dls : List Download}
    {avgQ1 avgP1 qs1 ps1 startedAt now r : ℚ}
    (h : (stagePEI stage p0 dls avgQ1 avgP1 qs1 ps1 startedAt now).2.1 = EtaText.approx r) :
    5000 ≤ r := by
  rw [stagePEI] at h
  dsimp only at h
  repeat' split at h
  all_goals
    dsimp only at h
  all_goals
    first
    | exact EtaText.noConfusion h
    | (injection h with h1
       rw [← h1]
       first
       | exact le_max_left _ _
       | exact le_trans (by norm_num : (5000 : ℚ) ≤ 10000) (le_max_left _ _))

theorem pollTick_eta_cases (s : PollState) (obs : StatusObs) (now : ℚ)
    (hh : s.halted = false) :
    (pollTick s (some obs) now).eta = EtaText.errorShown ∨
    ∃ a b c d e f g k, (pollTick s (some obs) now).eta =
      (stagePEI a b c d e f g k now).2.1 := by
  rw [pollTick, if_neg (by simp [hh])]
  dsimp only
  split
  · exact Or.inl rfl
  · exact Or.inr ⟨_, _, _, _, _, _, _, _, rfl⟩

/-- C9 (amended): while the observed stage matches the current stage, once
elapsed time in the stage exceeds 1.75× the learned average the ETA text
switches to the `taking longer than usual` message — unconditionally in
`queued`, and in `processing` whenever the poll carries downloads (when it
does not and progress reaches 95 the indeterminate `Finalizing…` message is
shown instead) — and every numeric countdown the loop ever shows is at
least 5000 ms, never negative. -/
theorem c9_eta_amended (s : PollState) (obs : StatusObs) (now : ℚ) :
    (s.halted = false → obs.stage = some "queued" → s.currentStage = "queued" →
      resolveAvg s.avgQ ETA_DEFAULT_QUEUED * (1.75 : ℚ) <
        now - (if s.queueStart = 0 then s.startedAt else s.queueStart) →
      (pollTick s (some obs) now).eta = EtaText.longer) ∧
    (s.halted = false → obs.stage = some "processing" → s.currentStage = "processing" →
      obs.downloads ≠ [] →
      resolveAvg s.avgP ETA_DEFAULT_PROCESSING * (1.75 : ℚ) <
        now - (if s.procStart = 0 then s.startedAt else s.procStart) →
      (pollTick s (some obs) now).eta = EtaText.longer) ∧
    (∀ r : ℚ, s.halted = false → (pollTick s (some obs) now).eta = EtaText.approx r →
      5000 ≤ r) := by
  refine ⟨?_, ?_, ?_⟩
  · intro hh hst hcur hlate
    rw [pollTick, if_neg (by simp [hh])]
    rw [hst]
    simp [effStage, hcur, finishTick, hlate, stagePEI]
  · intro hh hst hcur hdl hlate
    rw [pollTick, if_neg (by simp [hh])]
    rw [hst]
    simp [effStage, hcur, finishTick, hlate, hdl, stagePEI]
  · intro r hh heta
    have hcases := pollTick_eta_cases s obs now hh
    rcases hcases with hc | ⟨a, b, c, d, e, f, g, k, hc⟩
    · rw [hc] at heta
      exact absurd heta (by simp)
    · rw [hc] at heta
      exact stagePEI_approx_ge heta

/-- Witness for C9 (amended): a queued-stage tick 79000 ms into a stage
whose learned average is the 45000 ms default shows the `taking longer than
usual` message. -/
theorem c9_witness :
    (pollTick { initPoll 0 0 0 with currentStage := "queued", queueStart := 1000 }
      (some { stage := some "queued", progress := 25, downloads := [], rapidmodelId := none })
      80000).eta = EtaText.longer :=
  (c9_eta_amended { initPoll 0 0 0 with currentStage := "queued", queueStart := 1000 }
    { stage := some "queued", progress := 25, downloads := [], rapidmodelId := none }
    80000).1 rfl rfl rfl (by decide)

/-! ## Monotone displayed progress (C1) -/

theorem pollTick_progress_mono (s : PollState) (inp : Option StatusObs) (now : ℚ)
    (h : s.progress ≤ 100) :
    s.progress ≤ (pollTick s inp now).progress ∧ (pollTick s inp now).progress ≤ 100 := by
  rw [pollTick.eq_def]
  split
  · exact ⟨le_refl _, h⟩
  · cases inp with
    | none => exact ⟨le_refl _, h⟩
    | some obs =>
      dsimp only
      split
      · exact ⟨le_refl _, h⟩
      · dsimp only [finishTick]
        exact ⟨le_min h (le_max_left _ _), min_le_left _ _⟩

theorem progressTrace_head (s : PollState) (l : List (Option StatusObs × ℚ)) :
    (progressTrace s l).head? = some s.progress := by
  cases l with
  | nil => rfl
  | cons i rest =>
    rcases i with ⟨o, t⟩
    rfl

theorem progressTrace_chain : ∀ (inputs : List (Option StatusObs × ℚ)) (s : PollState),
    s.progress ≤ 100 → List.Chain' (· ≤ ·) (progressTrace s inputs) := by
  intro inputs
  induction inputs with
  | nil =>
    intro s h
    simp [progressTrace]
  | cons i rest ih =>
    intro s h
    rcases i with ⟨o, t⟩
    rw [progressTrace]
    have hm := pollTick_progress_mono s o t h
    rw [List.chain'_cons']
    constructor
    · intro b hb
      rw [progressTrace_head] at hb
      simp only [Option.mem_def, Option.some_inj] at hb
      subst hb
      exact hm.1
    · exact ih (pollTick s o t) hm.2

/-- C1: the claim as stated is false for the `statusPoller.ts` polling loop:
it hands the raw clamped progress straight to its display callback without
the monotonic clamp, so a status sequence reporting progress 50 and then 30
displays 50 and then 30 — a decrease between consecutive ticks. -/
theorem c1_counterexample :
    ((spTick (spInit 0) (some { progress := 50, stage := some "processing" }) 100).2).progress
        = 50 ∧
    ((spTick (spTick (spInit 0) (some { progress := 50, stage := some "processing" }) 100).1
        (some { progress := 30, stage := some "processing" }) 200).2).progress = 30 ∧
    (30 : ℚ) < 50 := by
  decide

/-- C1 (amended): in the `App.vue` polling loop — the loop whose state the
processing card renders — the displayed progress is non-decreasing over
every session: for every sequence of poll responses (successful or thrown)
and poll times, consecutive displayed progress values only ever rise,
whatever raw progress or stage the status endpoint reports. -/
theorem c1_displayed_progress_monotone (t0 aq ap : ℚ)
    (inputs : List (Option StatusObs × ℚ)) :
    List.Chain' (· ≤ ·) (progressTrace (initPoll t0 aq ap) inputs) :=
  progressTrace_chain inputs (initPoll t0 aq ap) ((by norm_num : (0 : ℚ) ≤ 100))

/-! ## Invalid hashes short-circuit the resolver (C10) -/

/-- C10: a missing, non-string, or empty-string hash argument makes the
dedup resolver return "not found" immediately with zero upstream page
requests issued, so a malformed contentHash in a start-upload body degrades
to a fresh upload rather than an error. -/
theorem c10_invalid_hash_no_request (oracle : Oracle) (hash : JsArg)
    (h : hash = JsArg.absent ∨ hash = JsArg.nonstr ∨ hash = JsArg.str "") :
    findByHash oracle hash = (none, 0) := by
  rcases h with rfl | rfl | rfl
  · rfl
  · rfl
  · simp [findByHash]

/-- Witness for C10 at the empty-string hash against a live catalog that
would otherwise produce a hit. -/
theorem c10_witness :
    findByHash hitOracle (JsArg.str "") = (none, 0) :=
  c10_invalid_hash_no_request hitOracle (JsArg.str "") (Or.inr (Or.inr rfl))

end MeshOpt
